import Mathlib

/-!
Verification of the passthrough service worker in `src/static/app/sw.js`.

The source registers three anonymous lifecycle handlers:

  self.addEventListener("install", (event) => { self.skipWaiting(); });
  self.addEventListener("activate", (event) => { event.waitUntil(clients.claim()); });
  self.addEventListener("fetch", (event) => { event.respondWith(fetch(event.request)); });

We embed each handler as a pure function from its event to the list of
host-API calls its body makes, in evaluation order.  The effect vocabulary
covers the host API surface a service worker body can touch (skipWaiting,
clients.claim, waitUntil, respondWith, the network fetch, CacheStorage
writes, global mutable state, console logging, addEventListener), so that
frame properties — which calls the handlers do NOT make — are non-vacuous.
The network is a parameter `net : Request → FetchOutcome` giving, for each
request, the outcome a direct (non-intercepted) call would produce under
the current network conditions.
-/

/-- An HTTP request as seen by the `fetch` event (`event.request`). -/
structure Request where
  url : String
  method : String
  headers : List (String × String)
  body : Option String
deriving DecidableEq, Repr

/-- An HTTP response as produced by the network. -/
structure Response where
  status : Nat
  headers : List (String × String)
  body : String
deriving DecidableEq, Repr

/-- A network-level failure of an outbound call. -/
inductive NetError where
  | offline
  | dnsFailure (host : String)
  | other (msg : String)
deriving DecidableEq, Repr

/-- How a network call settles: a response, or a failure (promise rejection). -/
inductive FetchOutcome where
  | success (resp : Response)
  | failure (err : NetError)
deriving DecidableEq, Repr

/-- A host-side error, e.g. a rejection of `skipWaiting()` or `clients.claim()`. -/
inductive HostError where
  | hostFailure (msg : String)
deriving DecidableEq, Repr

/-- Names of the lifecycle events a service worker can listen to. -/
inductive EventName where
  | installName
  | activateName
  | fetchName
deriving DecidableEq, Repr

/-- A promise value visible at the handler/host boundary: what a handler may
hand to `waitUntil` or `respondWith`. -/
inductive AsyncOp where
  | skipWaitingOp
  | claimOp
  | netFetchOp (r : Request)
deriving DecidableEq, Repr

/-- One host-API call made by a handler body, in evaluation order. -/
inductive Effect where
  | callSkipWaiting
  | callClaim
  | callNetFetch (r : Request)
  | waitUntil (op : AsyncOp)
  | respondWith (op : AsyncOp)
  | cacheWrite (url : String) (resp : Response)
  | setGlobal (key value : String)
  | logMsg (msg : String)
  | addListener (ev : EventName) (handlerTag : Nat)
deriving DecidableEq, Repr

/-- The `install` event handle.  The source handler never reads it, so the
model carries only an identity. -/
structure InstallEvent where
  eventId : Nat
deriving DecidableEq, Repr

/-- The `activate` event handle.  The source handler only calls its
`waitUntil`; it reads no field. -/
structure ActivateEvent where
  eventId : Nat
deriving DecidableEq, Repr

/-- The `fetch` event handle: the intercepted request plus an identity. -/
structure FetchEvent where
  eventId : Nat
  request : Request
deriving DecidableEq, Repr

/-- `(event) => { self.skipWaiting(); }` — the install handler body: one
call to `self.skipWaiting()`, whose returned promise is discarded. -/
def installHandler (_ : InstallEvent) : List Effect :=
  [Effect.callSkipWaiting]

/-- `(event) => { event.waitUntil(clients.claim()); }` — the activate
handler body: `clients.claim()` is called, then its promise is passed to
`event.waitUntil`. -/
def activateHandler (_ : ActivateEvent) : List Effect :=
  [Effect.callClaim, Effect.waitUntil AsyncOp.claimOp]

/-- `(event) => { event.respondWith(fetch(event.request)); }` — the fetch
handler body: `fetch(event.request)` is called, then its promise is passed
to `event.respondWith`. -/
def fetchHandler (ev : FetchEvent) : List Effect :=
  [Effect.callNetFetch ev.request, Effect.respondWith (AsyncOp.netFetchOp ev.request)]

/-- The requests of the outbound network calls a trace makes. -/
def netCallsOf (es : List Effect) : List Request :=
  es.filterMap fun e =>
    match e with
    | Effect.callNetFetch r => some r
    | _ => none

/-- The promises a trace hands to `waitUntil` (deferring lifecycle
completion until they settle). -/
def waitUntilOps (es : List Effect) : List AsyncOp :=
  es.filterMap fun e =>
    match e with
    | Effect.waitUntil op => some op
    | _ => none

/-- The promises a trace hands to `respondWith`. -/
def respondOps (es : List Effect) : List AsyncOp :=
  es.filterMap fun e =>
    match e with
    | Effect.respondWith op => some op
    | _ => none

/-- Every promise a trace passes on to the host (via `waitUntil` or
`respondWith`).  A promise in no such call is discarded by the handler. -/
def opsPassedToHost (es : List Effect) : List AsyncOp :=
  es.filterMap fun e =>
    match e with
    | Effect.waitUntil op => some op
    | Effect.respondWith op => some op
    | _ => none

/-- The console messages a trace logs. -/
def logsOf (es : List Effect) : List String :=
  es.filterMap fun e =>
    match e with
    | Effect.logMsg m => some m
    | _ => none

/-- The cache entries a trace writes. -/
def cacheWritesOf (es : List Effect) : List (String × Response) :=
  es.filterMap fun e =>
    match e with
    | Effect.cacheWrite u r => some (u, r)
    | _ => none

/-- Resolving a promise against the network: only a network-fetch promise
settles to a `FetchOutcome`. -/
def resolveNet (net : Request → FetchOutcome) : AsyncOp → Option FetchOutcome
  | AsyncOp.netFetchOp r => some (net r)
  | _ => none

/-- The result a direct, non-intercepted network request for `r` produces
under network conditions `net`. -/
def directFetch (net : Request → FetchOutcome) (r : Request) : FetchOutcome :=
  net r

/-- What the page receives for a fetch event: the settled value of the
first promise the handler passed to `respondWith`, resolved against the
network; `none` when the handler substitutes no response (host default). -/
def pageDelivery (net : Request → FetchOutcome) (ev : FetchEvent) : Option FetchOutcome :=
  match respondOps (fetchHandler ev) with
  | op :: _ => resolveNet net op
  | [] => none

/-- Resolving a lifecycle promise (`skipWaiting` / `claim`) against the
host-chosen outcomes of those operations. -/
def resolveLifecycle (outcome : AsyncOp → Except HostError Unit) (ops : List AsyncOp) :
    List (Except HostError Unit) :=
  ops.map outcome

/-- The lifecycle phase a handler belongs to is reported complete exactly
when every promise it passed to `waitUntil` has settled. -/
def lifecycleComplete (settled : AsyncOp → Bool) (waits : List AsyncOp) : Bool :=
  waits.all settled

/-- The mutable state a service worker could accumulate: CacheStorage
entries, global variables, and listeners added after module load. -/
structure WorkerState where
  cache : List (String × Response)
  globals : List (String × String)
  extraListeners : List (EventName × Nat)
deriving DecidableEq, Repr

/-- How one effect changes the worker state.  Only storage writes and
listener additions change it; host calls and promise plumbing do not. -/
def applyEffect (s : WorkerState) : Effect → WorkerState
  | Effect.cacheWrite u r => { s with cache := s.cache ++ [(u, r)] }
  | Effect.setGlobal k v => { s with globals := s.globals ++ [(k, v)] }
  | Effect.addListener ev tag => { s with extraListeners := s.extraListeners ++ [(ev, tag)] }
  | _ => s

/-- Running a trace over the worker state. -/
def applyEffects (s : WorkerState) (es : List Effect) : WorkerState :=
  es.foldl applyEffect s

/-- The listener registry built at module load by the three
`addEventListener` calls. -/
structure Listeners where
  onInstall : List (InstallEvent → List Effect)
  onActivate : List (ActivateEvent → List Effect)
  onFetch : List (FetchEvent → List Effect)

/-- `self.addEventListener("install", h)`. -/
def addInstallListener (l : Listeners) (h : InstallEvent → List Effect) : Listeners :=
  { l with onInstall := l.onInstall ++ [h] }

/-- `self.addEventListener("activate", h)`. -/
def addActivateListener (l : Listeners) (h : ActivateEvent → List Effect) : Listeners :=
  { l with onActivate := l.onActivate ++ [h] }

/-- `self.addEventListener("fetch", h)`. -/
def addFetchListener (l : Listeners) (h : FetchEvent → List Effect) : Listeners :=
  { l with onFetch := l.onFetch ++ [h] }

/-- Loading `sw.js`: starting from no listeners, the module registers its
three handlers, in source order. -/
def swModuleLoad : Listeners :=
  addFetchListener
    (addActivateListener
      (addInstallListener ⟨[], [], []⟩ installHandler)
      activateHandler)
    fetchHandler

/-- A lifecycle (install or activate) event arriving from the host. -/
inductive LifecycleEvent where
  | installEv (e : InstallEvent)
  | activateEv (e : ActivateEvent)
deriving DecidableEq, Repr

/-- Dispatching one lifecycle event runs every listener registered for it
at module load, concatenating their traces. -/
def dispatchLifecycle : LifecycleEvent → List Effect
  | LifecycleEvent.installEv e => swModuleLoad.onInstall.flatMap fun h => h e
  | LifecycleEvent.activateEv e => swModuleLoad.onActivate.flatMap fun h => h e

/-- Running a whole sequence of lifecycle events. -/
def runLifecycle (evs : List LifecycleEvent) : List Effect :=
  evs.flatMap dispatchLifecycle

/-- The number of install events in a sequence. -/
def installCount (evs : List LifecycleEvent) : Nat :=
  evs.countP fun e =>
    match e with
    | LifecycleEvent.installEv _ => true
    | _ => false

/-- The number of activate events in a sequence. -/
def activateCount (evs : List LifecycleEvent) : Nat :=
  evs.countP fun e =>
    match e with
    | LifecycleEvent.activateEv _ => true
    | _ => false

/-- A concrete request used to instantiate the hypotheses of the theorems. -/
def sampleRequest : Request :=
  ⟨"https://school.example/static/app/main.js", "GET", [("accept", "*/*")], none⟩

/-- A concrete fetch event carrying `sampleRequest`. -/
def sampleFetchEvent : FetchEvent := ⟨0, sampleRequest⟩

/-- A second fetch event, distinct from `sampleFetchEvent` but carrying the
same request. -/
def sampleFetchEventB : FetchEvent := ⟨1, sampleRequest⟩

/-- Network conditions under which every call fails as offline. -/
def offlineNet : Request → FetchOutcome :=
  fun _ => FetchOutcome.failure NetError.offline

/-- Network conditions under which every call succeeds, echoing the URL. -/
def echoNet : Request → FetchOutcome :=
  fun r => FetchOutcome.success ⟨200, [], r.url⟩

/-- Host behavior under which every lifecycle operation rejects. -/
def failingOutcome : AsyncOp → Except HostError Unit :=
  fun _ => Except.error (HostError.hostFailure "InvalidStateError")

/- Helper lemmas shared by the lifecycle-sequence theorems. -/

/-- Dispatching an install event runs exactly the registered install
handler. -/
theorem dispatch_install_eq (e : InstallEvent) :
    dispatchLifecycle (LifecycleEvent.installEv e) = [Effect.callSkipWaiting] := rfl

/-- Dispatching an activate event runs exactly the registered activate
handler. -/
theorem dispatch_activate_eq (e : ActivateEvent) :
    dispatchLifecycle (LifecycleEvent.activateEv e) =
      [Effect.callClaim, Effect.waitUntil AsyncOp.claimOp] := rfl

/-- Running a trace splits over concatenation. -/
theorem applyEffects_append (s : WorkerState) (l1 l2 : List Effect) :
    applyEffects s (l1 ++ l2) = applyEffects (applyEffects s l1) l2 :=
  List.foldl_append applyEffect s l1 l2

/-- Each event's skip-wait calls: one per install event, none otherwise. -/
theorem count_skip_run (evs : List LifecycleEvent) :
    (runLifecycle evs).count Effect.callSkipWaiting = installCount evs := by
  induction evs with
  | nil => rfl
  | cons e evs ih =>
    cases e with
    | installEv ie =>
      show (dispatchLifecycle (LifecycleEvent.installEv ie) ++ runLifecycle evs).count
          Effect.callSkipWaiting = installCount (LifecycleEvent.installEv ie :: evs)
      rw [dispatch_install_eq, List.count_append, ih]
      simp [installCount, List.countP_cons, Nat.add_comm]
    | activateEv ae =>
      show (dispatchLifecycle (LifecycleEvent.activateEv ae) ++ runLifecycle evs).count
          Effect.callSkipWaiting = installCount (LifecycleEvent.activateEv ae :: evs)
      rw [dispatch_activate_eq, List.count_append, ih]
      simp [installCount, List.countP_cons, Nat.add_comm]

/-- Each event's claim calls: one per activate event, none otherwise. -/
theorem count_claim_run (evs : List LifecycleEvent) :
    (runLifecycle evs).count Effect.callClaim = activateCount evs := by
  induction evs with
  | nil => rfl
  | cons e evs ih =>
    cases e with
    | installEv ie =>
      show (dispatchLifecycle (LifecycleEvent.installEv ie) ++ runLifecycle evs).count
          Effect.callClaim = activateCount (LifecycleEvent.installEv ie :: evs)
      rw [dispatch_install_eq, List.count_append, ih]
      simp [activateCount, List.countP_cons, Nat.add_comm]
    | activateEv ae =>
      show (dispatchLifecycle (LifecycleEvent.activateEv ae) ++ runLifecycle evs).count
          Effect.callClaim = activateCount (LifecycleEvent.activateEv ae :: evs)
      rw [dispatch_activate_eq, List.count_append, ih]
      simp [activateCount, List.countP_cons, Nat.add_comm]

/-- Lifecycle dispatch never changes the worker state. -/
theorem state_run_fixed (evs : List LifecycleEvent) (s : WorkerState) :
    applyEffects s (runLifecycle evs) = s := by
  induction evs generalizing s with
  | nil => rfl
  | cons e evs ih =>
    show applyEffects s (dispatchLifecycle e ++ runLifecycle evs) = s
    rw [applyEffects_append]
    cases e with
    | installEv ie => rw [dispatch_install_eq]; exact ih s
    | activateEv ae => rw [dispatch_activate_eq]; exact ih s

/-- Claim C1: for every fetch event, the handler makes exactly one outbound
network call, for the intercepted request itself, and the page receives
exactly the outcome a direct (non-intercepted) request would produce under
the same network conditions. -/
theorem fetch_passthrough_identity (net : Request → FetchOutcome) (ev : FetchEvent) :
    netCallsOf (fetchHandler ev) = [ev.request] ∧
    pageDelivery net ev = some (directFetch net ev.request) :=
  ⟨rfl, rfl⟩

/-- Claim C2: when the forwarded network call fails, the page receives that
exact failure — no substituted fallback response — and the handler logs
nothing and writes no cache entry. -/
theorem fetch_failure_transparent (net : Request → FetchOutcome) (ev : FetchEvent)
    (e : NetError) (h : net ev.request = FetchOutcome.failure e) :
    pageDelivery net ev = some (FetchOutcome.failure e) ∧
    logsOf (fetchHandler ev) = [] ∧
    cacheWritesOf (fetchHandler ev) = [] := by
  refine ⟨?_, rfl, rfl⟩
  show some (net ev.request) = some (FetchOutcome.failure e)
  rw [h]

/-- Witness for C2 at a concrete offline network and event. -/
theorem fetch_failure_transparent_witness :
    pageDelivery offlineNet sampleFetchEvent = some (FetchOutcome.failure NetError.offline) ∧
    logsOf (fetchHandler sampleFetchEvent) = [] ∧
    cacheWritesOf (fetchHandler sampleFetchEvent) = [] :=
  fetch_failure_transparent offlineNet sampleFetchEvent NetError.offline rfl

/-- Claim C3: every activate event invokes the claim operation exactly once
and hands its promise to `waitUntil`, so the activation lifecycle is
reported complete exactly when the claim operation has settled. -/
theorem activate_claim_once_awaited (ev : ActivateEvent) (settled : AsyncOp → Bool) :
    (activateHandler ev).count Effect.callClaim = 1 ∧
    waitUntilOps (activateHandler ev) = [AsyncOp.claimOp] ∧
    lifecycleComplete settled (waitUntilOps (activateHandler ev)) = settled AsyncOp.claimOp := by
  refine ⟨rfl, rfl, ?_⟩
  show (settled AsyncOp.claimOp && true) = settled AsyncOp.claimOp
  exact Bool.and_true _

/-- Claim C4: every install event signals skip-wait exactly once, and the
handler body consists of that single call and nothing else. -/
theorem install_skip_once (ev : InstallEvent) :
    installHandler ev = [Effect.callSkipWaiting] ∧
    (installHandler ev).count Effect.callSkipWaiting = 1 :=
  ⟨rfl, rfl⟩

/-- Claim C5: over any sequence of install/activate events, each install
yields exactly one skip-wait call, each activate exactly one claim call, the
worker state (cache, globals, added listeners) never changes, and the module
has exactly one registered handler per event kind. -/
theorem lifecycle_no_accumulation (evs : List LifecycleEvent) (s : WorkerState) :
    (runLifecycle evs).count Effect.callSkipWaiting = installCount evs ∧
    (runLifecycle evs).count Effect.callClaim = activateCount evs ∧
    applyEffects s (runLifecycle evs) = s ∧
    swModuleLoad.onInstall.length = 1 ∧
    swModuleLoad.onActivate.length = 1 ∧
    swModuleLoad.onFetch.length = 1 :=
  ⟨count_skip_run evs, count_claim_run evs, state_run_fixed evs s, rfl, rfl, rfl⟩

/-- Claim C6: after any number of fetch interceptions, the handler has
written no cache entry and the worker state is unchanged — no persistent
storage and no global mutable state is created. -/
theorem fetch_no_storage (evs : List FetchEvent) (s : WorkerState) :
    cacheWritesOf (evs.flatMap fetchHandler) = [] ∧
    applyEffects s (evs.flatMap fetchHandler) = s := by
  induction evs generalizing s with
  | nil => exact ⟨rfl, rfl⟩
  | cons e evs ih =>
    have hflat : (e :: evs).flatMap fetchHandler =
        fetchHandler e ++ evs.flatMap fetchHandler := rfl
    constructor
    · rw [hflat]
      show cacheWritesOf (fetchHandler e) ++ cacheWritesOf (evs.flatMap fetchHandler) = []
      rw [(ih s).1]
      rfl
    · rw [hflat, applyEffects_append]
      exact (ih ((applyEffects s (fetchHandler e)))).2

/-- Claim C7: the fetch handler applies one unconditional rule — forward the
request to the network and respond with the result — with no branching on
any attribute of the event beyond the request it forwards: any two events
with equal requests produce identical handler bodies. -/
theorem fetch_single_rule (ev ev2 : FetchEvent) (h : ev2.request = ev.request) :
    fetchHandler ev =
      [Effect.callNetFetch ev.request, Effect.respondWith (AsyncOp.netFetchOp ev.request)] ∧
    fetchHandler ev2 = fetchHandler ev := by
  refine ⟨rfl, ?_⟩
  show [Effect.callNetFetch ev2.request, Effect.respondWith (AsyncOp.netFetchOp ev2.request)] =
    [Effect.callNetFetch ev.request, Effect.respondWith (AsyncOp.netFetchOp ev.request)]
  rw [h]

/-- Witness for C7 at two concrete events sharing a request. -/
theorem fetch_single_rule_witness :
    fetchHandler sampleFetchEvent =
      [Effect.callNetFetch sampleFetchEvent.request,
       Effect.respondWith (AsyncOp.netFetchOp sampleFetchEvent.request)] ∧
    fetchHandler sampleFetchEventB = fetchHandler sampleFetchEvent :=
  fetch_single_rule sampleFetchEvent sampleFetchEventB rfl

/-- Claim C8: neither handler catches lifecycle failures: the install
handler awaits nothing (a skip-wait rejection meets no handling in this
code), and a claim rejection reaches the host through `waitUntil` as that
exact unwrapped error. -/
theorem lifecycle_failures_uncaught (ie : InstallEvent) (ae : ActivateEvent)
    (outcome : AsyncOp → Except HostError Unit) (e : HostError)
    (h : outcome AsyncOp.claimOp = Except.error e) :
    resolveLifecycle outcome (waitUntilOps (installHandler ie)) = [] ∧
    resolveLifecycle outcome (waitUntilOps (activateHandler ae)) = [Except.error e] := by
  refine ⟨rfl, ?_⟩
  show [outcome AsyncOp.claimOp] = [Except.error e]
  rw [h]

/-- Witness for C8 at a concrete rejecting host. -/
theorem lifecycle_failures_uncaught_witness :
    resolveLifecycle failingOutcome (waitUntilOps (installHandler ⟨0⟩)) = [] ∧
    resolveLifecycle failingOutcome (waitUntilOps (activateHandler ⟨0⟩)) =
      [Except.error (HostError.hostFailure "InvalidStateError")] :=
  lifecycle_failures_uncaught ⟨0⟩ ⟨0⟩ failingOutcome
    (HostError.hostFailure "InvalidStateError") rfl

/-- Claim C9: every handler is deterministic modulo the host operations:
install and activate handlers ignore their event entirely, and the fetch
handler's body and delivered response depend only on the event's request. -/
theorem handlers_deterministic (i1 i2 : InstallEvent) (a1 a2 : ActivateEvent)
    (f1 f2 : FetchEvent) (net : Request → FetchOutcome) (h : f1.request = f2.request) :
    installHandler i1 = installHandler i2 ∧
    activateHandler a1 = activateHandler a2 ∧
    fetchHandler f1 = fetchHandler f2 ∧
    pageDelivery net f1 = pageDelivery net f2 := by
  refine ⟨rfl, rfl, ?_, ?_⟩
  · show [Effect.callNetFetch f1.request, Effect.respondWith (AsyncOp.netFetchOp f1.request)] =
      [Effect.callNetFetch f2.request, Effect.respondWith (AsyncOp.netFetchOp f2.request)]
    rw [h]
  · show some (net f1.request) = some (net f2.request)
    rw [h]

/-- Witness for C9 at concrete distinct events with equal requests. -/
theorem handlers_deterministic_witness :
    installHandler ⟨0⟩ = installHandler ⟨1⟩ ∧
    activateHandler ⟨0⟩ = activateHandler ⟨1⟩ ∧
    fetchHandler sampleFetchEvent = fetchHandler sampleFetchEventB ∧
    pageDelivery echoNet sampleFetchEvent = pageDelivery echoNet sampleFetchEventB :=
  handlers_deterministic ⟨0⟩ ⟨1⟩ ⟨0⟩ ⟨1⟩ sampleFetchEvent sampleFetchEventB echoNet rfl

/-- Claim C10: the install handler passes no promise to the host — the
skip-wait promise is discarded — so install-lifecycle completion holds for
every settlement state of the host operations; the activate handler, by
contrast, defers on the claim promise. -/
theorem install_completion_not_deferred (ie : InstallEvent) (ae : ActivateEvent)
    (settled : AsyncOp → Bool) :
    opsPassedToHost (installHandler ie) = [] ∧
    waitUntilOps (installHandler ie) = [] ∧
    lifecycleComplete settled (waitUntilOps (installHandler ie)) = true ∧
    waitUntilOps (activateHandler ae) = [AsyncOp.claimOp] :=
  ⟨rfl, rfl, rfl, rfl⟩
